import Mathlib

/-!
Verification of the gallery page template of the portfolio site.

The repository holds two versions of the same Gatsby template:
`src/templates/galleries.js` (module constants `cardSize`, `delay`; component
constants `modalHeight = 620.666`, `modalWidth = 931`; inlined effects) and an
earlier variant (`part_000`) whose helpers `animateModal`,
`displayGalleryCards` and `setObserverCallback` take `delay` and the DOM
nodes as parameters, and which computes `modalHeight = modalWidth * (2 / 3)`.

JavaScript numbers are embedded as rationals (`ℚ`); decimal literals such as
`620.666` and `3.666` denote the exact decimal fractions written in the
source.  DOM side effects are embedded as explicit state: an element's
geometry is a record of its `offset*` measurements, a `style.transform`
assignment is a record of the translate/scale components written into the
transform string, and each `setTimeout` call is recorded as a scheduled
update carrying its timeout and the assignments its callback performs.
-/

namespace Portfolio

/-- Offset geometry of a DOM element (`offsetLeft`, `offsetTop`,
`offsetWidth`, `offsetHeight`), as read by the modal effect. -/
structure ElementGeom where
  offsetLeft : ℚ
  offsetTop : ℚ
  offsetWidth : ℚ
  offsetHeight : ℚ
deriving DecidableEq

/-- Components of a CSS transform string of the shape
`translate(x, y) scaleX(sx) scaleY(sy)` as assigned to the modal's
`style.transform`. -/
structure Transform where
  translateX : ℚ
  translateY : ℚ
  scaleX : ℚ
  scaleY : ℚ
deriving DecidableEq

/-- Components of a CSS transform string of the shape `scaleX(sx) scaleY(sy)`
as assigned to the modal image container's `style.transform`. -/
structure Scale where
  scaleX : ℚ
  scaleY : ℚ
deriving DecidableEq

/-- Mutable state of the modal element touched by the modal effect: its own
transform, the transform of its first child (the image container,
`modal.childNodes[0]`), and its class list. -/
structure ModalState where
  transform : Transform
  containerScale : Scale
  classes : List String
deriving DecidableEq

/-- Page measurements read inside the `setTimeout` callback of the modal
effect: `body.offsetWidth`, `body.offsetHeight`, the top of the
`.gallery__cards` container (`getBoundingClientRect().top` of the modal's
parent) and `window.scrollY`. -/
structure Env where
  bodyOffsetWidth : ℚ
  bodyOffsetHeight : ℚ
  modalParentTop : ℚ
  scrollY : ℚ
deriving DecidableEq

/-- One `setTimeout` registration made by the modal effect: the timeout and
the assignments the callback performs (modal transform, image container
transform, classes added to the modal's class list). -/
structure ScheduledUpdate where
  time : ℚ
  modalTransform : Transform
  containerScale : Scale
  addClasses : List String
deriving DecidableEq

/-- Everything the modal effect writes synchronously, plus its scheduled
`setTimeout` work: the style string assigned to the active card (the code
clears it with `activeCard.style = ''`), the new modal state, and the list of
scheduled updates. -/
structure EffectResult where
  activeCardStyle : Option String
  modal : ModalState
  scheduled : List ScheduledUpdate
deriving DecidableEq

/-- An `IntersectionObserverEntry`: its `isIntersecting` flag and its
`target` element. -/
structure Entry (α : Type) where
  isIntersecting : Bool
  target : α
deriving DecidableEq

/-- One `setTimeout` registration made by the observer callback or by
`displayGalleryCards`: the timeout, the element, and the class the callback
adds to its class list. -/
structure ScheduledAdd (α : Type) where
  time : ℚ
  target : α
  className : String
deriving DecidableEq

/-! ## Data model of the GraphQL query result and the rendered tree -/

/-- An image node from `data.allFile.edges[i].node`: its `base` filename and
the `childImageSharp.fluid` payload (opaque to the template, carried
through to the `Img` element). -/
structure ImageNode where
  base : String
  fluid : String
deriving DecidableEq

/-- One edge of `data.allFile.edges`. -/
structure ImageEdge where
  node : ImageNode
deriving DecidableEq

/-- The `markdownRemark` part of the query result. -/
structure MarkdownRemark where
  html : String
  title : String
deriving DecidableEq

/-- The `data` prop of the page component. -/
structure GalleryData where
  markdownRemark : MarkdownRemark
  allFileEdges : List ImageEdge
deriving DecidableEq

/-- The DOM node stored in `activeCard` state after a click: all the render
output reads from it is `dataset.index`, the string written into the
`data-index` attribute, embedded as its little-endian decimal digits. -/
structure ActiveCard where
  datasetIndex : List ℕ
deriving DecidableEq

/-- One rendered `.gallery__card-container` element: the `data-index`
attribute (decimal digits of the index), the `data-node-base` attribute, and
the `alt`/`fluid` props of the inner `Img`. -/
structure RenderedCard where
  datasetIndex : List ℕ
  dataNodeBase : String
  imgAlt : String
  imgFluid : String
deriving DecidableEq

/-- The element tree returned by the component's render: heading and html of
the markdown content, the props handed to `GalleryModal`, and the list of
gallery cards. -/
structure RenderedTree where
  title : String
  html : String
  modalActiveCardIndex : Option ℕ
  modalCardSize : ℚ
  modalHeight : ℚ
  modalWidth : ℚ
  modalImages : List ImageEdge
  cards : List RenderedCard
deriving DecidableEq

/-- Separator used by `image.node.base.split('.')`. -/
def dotSep : String := "."

namespace Galleries

/-! ### `src/templates/galleries.js` -/

/-- `const cardSize = 275`. -/
def cardSize : ℚ := 275

/-- `const delay = 300`. -/
def delay : ℚ := 300

/-- `const modalHeight = 620.666` (component constant, hardcoded). -/
def modalHeight : ℚ := 620.666

/-- `const modalWidth = 931` (component constant). -/
def modalWidth : ℚ := 931

/-- Timeout used by `displayGalleryCards` for the card at position `index`:
`(index * delay) / 3.666`. -/
def revealTimeout (index : ℕ) : ℚ := (index * delay) / 3.666

/-- `displayGalleryCards`, iterating from position `start`: schedules adding
the class `is-visible` to each card at its `revealTimeout`. -/
def displayGalleryCardsFrom {α : Type} (start : ℕ) : List α → List (ScheduledAdd α)
  | [] => []
  | card :: rest =>
      ⟨revealTimeout start, card, "is-visible"⟩ :: displayGalleryCardsFrom (start + 1) rest

/-- `displayGalleryCards`: for each `.gallery__card` element in document
order, schedules `card.classList.add('is-visible')` at `(index * delay) / 3.666`. -/
def displayGalleryCards {α : Type} (cards : List α) : List (ScheduledAdd α) :=
  displayGalleryCardsFrom 0 cards

/-- `observerCallback`: for each entry, when `entry.isIntersecting` holds,
schedules `entry.target.classList.add('has-entered')` at `delay / 3`; other
entries trigger nothing. -/
def observerCallback {α : Type} : List (Entry α) → List (ScheduledAdd α)
  | [] => []
  | e :: rest =>
      (if e.isIntersecting then [⟨delay / 3, e.target, "has-entered"⟩] else [])
        ++ observerCallback rest

/-- The transform assigned to the modal when a card becomes active:
`translate(activeCardX px, activeCardY px) scaleX(cardSize / modalWidth)
scaleY(cardSize / modalHeight)` with
`activeCardX = activeCard.offsetLeft - modalWidth / 2 + activeCard.offsetWidth / 2` and
`activeCardY = activeCard.offsetTop - modalHeight / 2 + activeCard.offsetHeight / 2`. -/
def initialModalTransform (activeCard : ElementGeom) : Transform :=
  { translateX := activeCard.offsetLeft - modalWidth / 2 + activeCard.offsetWidth / 2
    translateY := activeCard.offsetTop - modalHeight / 2 + activeCard.offsetHeight / 2
    scaleX := cardSize / modalWidth
    scaleY := cardSize / modalHeight }

/-- The transform assigned to the modal image container when a card becomes
active: `scaleX(modalWidth / cardSize) scaleY(modalHeight / cardSize)`. -/
def initialContainerScale : Scale :=
  { scaleX := modalWidth / cardSize
    scaleY := modalHeight / cardSize }

/-- The transform the `setTimeout` callback assigns to the modal:
`translate(centerX + 0.5 px, centerY px) scaleX(1) scaleY(1)` with
`centerX = body.offsetWidth / 2 - modalWidth / 2` and `centerY` as in the
source. -/
def finalModalTransform (env : Env) : Transform :=
  { translateX := env.bodyOffsetWidth / 2 - modalWidth / 2 + 0.5
    translateY :=
      env.bodyOffsetHeight / 2 - modalHeight / 2 - env.modalParentTop / 2 + env.scrollY / 2
    scaleX := 1
    scaleY := 1 }

/-- The modal `useEffect` body: when `activeCard` is null it returns at once;
otherwise it clears the card's inline style, removes `is-active` from the
modal, writes the initial transforms, and schedules (at `delay * 2`) the
final transforms together with re-adding `is-active`. -/
def modalEffect (activeCard : Option ElementGeom) (s : ModalState) (env : Env) :
    EffectResult :=
  match activeCard with
  | none => ⟨none, s, []⟩
  | some card =>
      ⟨some "",
       { transform := initialModalTransform card
         containerScale := initialContainerScale
         classes := s.classes.filter (· != "is-active") },
       [⟨delay * 2, finalModalTransform env, ⟨1, 1⟩, ["is-active"]⟩]⟩

/-- Builds the rendered `.gallery__card-container` at position `index` for
`image`: `data-index={index}` (stringified by the DOM, kept as decimal
digits), `data-node-base={image.node.base}`,
`alt={image.node.base.split('.')[0]}` and `fluid={image.node.childImageSharp.fluid}`. -/
def mkRenderedCard (index : ℕ) (image : ImageEdge) : RenderedCard :=
  { datasetIndex := Nat.digits 10 index
    dataNodeBase := image.node.base
    imgAlt := (image.node.base.splitOn dotSep).headD ""
    imgFluid := image.node.fluid }

/-- `images.map((image, index) => ...)` starting at position `start`. -/
def renderCardsFrom (start : ℕ) : List ImageEdge → List RenderedCard
  | [] => []
  | image :: rest => mkRenderedCard start image :: renderCardsFrom (start + 1) rest

/-- `images.map((image, index) => ...)`: one card per image, in list order. -/
def renderCards (images : List ImageEdge) : List RenderedCard :=
  renderCardsFrom 0 images

/-- `activeCard && Number(activeCard.dataset.index)`: null stays null,
otherwise the decimal string in `data-index` is parsed back to a number. -/
def activeCardIndex (activeCard : Option ActiveCard) : Option ℕ :=
  activeCard.map fun card => Nat.ofDigits 10 card.datasetIndex

/-- The card node `cardRefs[index].current` as the click handler stores it
into `activeCard` state: its `data-index` attribute holds the decimal string
of `index`, written by the render (`data-index={index}`). -/
def cardRefAt (index : ℕ) : ActiveCard :=
  ⟨Nat.digits 10 index⟩

/-- The component's render: a pure function of the `data` prop and the
`activeCard` state. -/
def renderGallery (data : GalleryData) (activeCard : Option ActiveCard) : RenderedTree :=
  { title := data.markdownRemark.title
    html := data.markdownRemark.html
    modalActiveCardIndex := activeCardIndex activeCard
    modalCardSize := cardSize
    modalHeight := modalHeight
    modalWidth := modalWidth
    modalImages := data.allFileEdges
    cards := renderCards data.allFileEdges }

end Galleries

namespace Part000

/-! ### The earlier template variant (unnamed source file `part_000`) -/

/-- `const cardSize = 275` (component constant). -/
def cardSize : ℚ := 275

/-- `const delay = 300` (component constant). -/
def delay : ℚ := 300

/-- `const modalWidth = 931` (component constant). -/
def modalWidth : ℚ := 931

/-- `const modalHeight = modalWidth * (2 / 3)` (component constant,
computed). -/
def modalHeight : ℚ := modalWidth * (2 / 3)

/-- `displayGalleryCards(delay)`, iterating from position `start`: the same
schedule as the other version but with `delay` passed as a parameter. -/
def displayGalleryCardsFrom {α : Type} (delay : ℚ) (start : ℕ) :
    List α → List (ScheduledAdd α)
  | [] => []
  | card :: rest =>
      ⟨(start * delay) / 3.666, card, "is-visible"⟩
        :: displayGalleryCardsFrom delay (start + 1) rest

/-- `displayGalleryCards(delay)`: schedules `classList.add('is-visible')` on
the card at position `index` at `(index * delay) / 3.666`. -/
def displayGalleryCards {α : Type} (delay : ℚ) (cards : List α) : List (ScheduledAdd α) :=
  displayGalleryCardsFrom delay 0 cards

/-- `setObserverCallback(delay)`: returns the observer callback; for each
intersecting entry it schedules `classList.add('has-entered')` at `delay / 3`. -/
def setObserverCallback {α : Type} (delay : ℚ) : List (Entry α) → List (ScheduledAdd α)
  | [] => []
  | e :: rest =>
      (if e.isIntersecting then [⟨delay / 3, e.target, "has-entered"⟩] else [])
        ++ setObserverCallback delay rest

/-- `targetX = target.offsetLeft - modal.offsetWidth / 2 + target.offsetWidth / 2`. -/
def targetX (modal target : ElementGeom) : ℚ :=
  target.offsetLeft - modal.offsetWidth / 2 + target.offsetWidth / 2

/-- `targetY = target.offsetTop - modal.offsetHeight / 2 + target.offsetHeight / 2`. -/
def targetY (modal target : ElementGeom) : ℚ :=
  target.offsetTop - modal.offsetHeight / 2 + target.offsetHeight / 2

/-- The transform `animateModal` first assigns to the modal:
`translate(targetX px, targetY px) scaleX(target.offsetWidth / modal.offsetWidth)
scaleY(target.offsetHeight / modal.offsetHeight)`. -/
def initialModalTransform (modal target : ElementGeom) : Transform :=
  { translateX := targetX modal target
    translateY := targetY modal target
    scaleX := target.offsetWidth / modal.offsetWidth
    scaleY := target.offsetHeight / modal.offsetHeight }

/-- The transform `animateModal` first assigns to the modal image container:
`scaleX(modal.offsetWidth / target.offsetWidth)
scaleY(modal.offsetHeight / target.offsetHeight)`. -/
def initialContainerScale (modal target : ElementGeom) : Scale :=
  { scaleX := modal.offsetWidth / target.offsetWidth
    scaleY := modal.offsetHeight / target.offsetHeight }

/-- The transform the `setTimeout` callback assigns to the modal:
`translate(centerX + 0.5 px, centerY px) scale(1)`. -/
def finalModalTransform (modal : ElementGeom) (env : Env) : Transform :=
  { translateX := env.bodyOffsetWidth / 2 - modal.offsetWidth / 2 + 0.5
    translateY :=
      env.bodyOffsetHeight / 2 - modal.offsetHeight / 2 - env.modalParentTop / 2
        + env.scrollY / 2
    scaleX := 1
    scaleY := 1 }

/-- `animateModal(delay, modal, modalParent, target)`: returns at once when
`target` is null; otherwise clears the target's inline style, writes the
initial (inverse-scaled) transforms, and schedules the final transforms at
`delay * 2`.  This version never touches the modal's class list. -/
def animateModal (delay : ℚ) (modal : ElementGeom) (target : Option ElementGeom)
    (s : ModalState) (env : Env) : EffectResult :=
  match target with
  | none => ⟨none, s, []⟩
  | some t =>
      ⟨some "",
       { transform := initialModalTransform modal t
         containerScale := initialContainerScale modal t
         classes := s.classes },
       [⟨delay * 2, finalModalTransform modal env, ⟨1, 1⟩, []⟩]⟩

end Part000

/-! ## Shared sample values used to instantiate theorems with hypotheses -/

/-- A modal element whose offsets match the part_000 constants. -/
def sampleModal : ElementGeom := ⟨0, 0, 931, 931 * (2 / 3)⟩

/-- A card element of the standard 275 × 275 card geometry. -/
def sampleCard : ElementGeom := ⟨100, 200, 275, 275⟩

/-- A neutral modal state. -/
def sampleState : ModalState := ⟨⟨0, 0, 1, 1⟩, ⟨1, 1⟩, []⟩

/-- Sample page measurements. -/
def sampleEnv : Env := ⟨1280, 2000, 150, 40⟩

/-- Sample filename of an image node. -/
def sampleBase : String := "photo-1.jpg"

/-- Sample query data with a single image edge. -/
def sampleData : GalleryData := ⟨⟨"<p>hi</p>", "Gallery"⟩, [⟨⟨sampleBase, "fluid-1"⟩⟩]⟩

/-! ## Helper lemmas -/

/-- Length of the indexed card render. -/
theorem length_renderCardsFrom (start : ℕ) (images : List ImageEdge) :
    (Galleries.renderCardsFrom start images).length = images.length := by
  induction images generalizing start with
  | nil => rfl
  | cons image rest ih => simp [Galleries.renderCardsFrom, ih]

/-- Element lookup in the indexed card render. -/
theorem getElem?_renderCardsFrom (images : List ImageEdge) :
    ∀ start i : ℕ,
      (Galleries.renderCardsFrom start images)[i]? =
        images[i]?.map fun image => Galleries.mkRenderedCard (start + i) image := by
  induction images with
  | nil => intro start i; simp [Galleries.renderCardsFrom]
  | cons image rest ih =>
    intro start i
    cases i with
    | zero => simp [Galleries.renderCardsFrom]
    | succ n =>
      have h : start + 1 + n = start + (n + 1) := by omega
      simp [Galleries.renderCardsFrom, ih (start + 1) n, h]

/-! ## The claims -/

/-- Claim C1: in the modal expand choreography the modal's initial scale
factors and the inner image container's initial scale factors are exact
multiplicative inverses: for every positive card width/height and positive
modal width/height, the product of the two factors on each axis is `1`, so
the composed visual scale of the image is the identity. -/
theorem C1_scale_inverse (d : ℚ) (modal target : ElementGeom) (s : ModalState) (env : Env)
    (htw : 0 < target.offsetWidth) (hth : 0 < target.offsetHeight)
    (hmw : 0 < modal.offsetWidth) (hmh : 0 < modal.offsetHeight) :
    (Part000.animateModal d modal (some target) s env).modal.transform.scaleX *
        (Part000.animateModal d modal (some target) s env).modal.containerScale.scaleX = 1 ∧
      (Part000.animateModal d modal (some target) s env).modal.transform.scaleY *
        (Part000.animateModal d modal (some target) s env).modal.containerScale.scaleY = 1 := by
  have hmw0 : modal.offsetWidth ≠ 0 := ne_of_gt hmw
  have hmh0 : modal.offsetHeight ≠ 0 := ne_of_gt hmh
  have htw0 : target.offsetWidth ≠ 0 := ne_of_gt htw
  have hth0 : target.offsetHeight ≠ 0 := ne_of_gt hth
  constructor
  · simp only [Part000.animateModal, Part000.initialModalTransform,
      Part000.initialContainerScale]
    field_simp
  · simp only [Part000.animateModal, Part000.initialModalTransform,
      Part000.initialContainerScale]
    field_simp

/-- Witness for C1 at the concrete geometry of the template (275 × 275 card,
931 × 620.666… modal). -/
theorem C1_scale_inverse_witness :
    (0 : ℚ) < sampleCard.offsetWidth ∧ (0 : ℚ) < sampleCard.offsetHeight ∧
      (0 : ℚ) < sampleModal.offsetWidth ∧ (0 : ℚ) < sampleModal.offsetHeight ∧
      ((Part000.animateModal 300 sampleModal (some sampleCard) sampleState
            sampleEnv).modal.transform.scaleX *
          (Part000.animateModal 300 sampleModal (some sampleCard) sampleState
            sampleEnv).modal.containerScale.scaleX = 1 ∧
        (Part000.animateModal 300 sampleModal (some sampleCard) sampleState
            sampleEnv).modal.transform.scaleY *
          (Part000.animateModal 300 sampleModal (some sampleCard) sampleState
            sampleEnv).modal.containerScale.scaleY = 1) :=
  ⟨by norm_num [sampleCard], by norm_num [sampleCard], by norm_num [sampleModal],
    by norm_num [sampleModal],
    C1_scale_inverse 300 sampleModal sampleCard sampleState sampleEnv
      (by norm_num [sampleCard]) (by norm_num [sampleCard])
      (by norm_num [sampleModal]) (by norm_num [sampleModal])⟩

/-- Claim C2: the modal's initial translate centres it on the clicked card:
the computed X offset satisfies
`translateX + modalWidth / 2 = offsetLeft + offsetWidth / 2`, and the Y
offset satisfies
`translateY + modalHeight / 2 = offsetTop + offsetHeight / 2`. -/
theorem C2_modal_centres_on_card (card : ElementGeom) :
    (Galleries.initialModalTransform card).translateX + Galleries.modalWidth / 2 =
        card.offsetLeft + card.offsetWidth / 2 ∧
      (Galleries.initialModalTransform card).translateY + Galleries.modalHeight / 2 =
        card.offsetTop + card.offsetHeight / 2 := by
  constructor <;> simp [Galleries.initialModalTransform] <;> ring

/-- Claim C3: for every clicked card the modal effect schedules exactly one
update, at timeout `delay * 2` (`600` with `delay = 300`), and that update
sets the modal's scale factors and the image container's scale factors all
to exactly `1`. -/
theorem C3_expand_schedule (card : ElementGeom) (s : ModalState) (env : Env) :
    ∃ u : ScheduledUpdate,
      (Galleries.modalEffect (some card) s env).scheduled = [u] ∧
        u.time = Galleries.delay * 2 ∧ Galleries.delay * 2 = 600 ∧
        u.modalTransform.scaleX = 1 ∧ u.modalTransform.scaleY = 1 ∧
        u.containerScale.scaleX = 1 ∧ u.containerScale.scaleY = 1 :=
  ⟨⟨Galleries.delay * 2, Galleries.finalModalTransform env, ⟨1, 1⟩, ["is-active"]⟩,
    rfl, rfl, by norm_num [Galleries.delay], rfl, rfl, rfl, rfl⟩

/-- Claim C4: the staggered reveal timeout `(index * delay) / 3.666` is
strictly monotone in the card index, so cards are revealed in sequential
index order. -/
theorem C4_reveal_strict_mono (i j : ℕ) (h : i < j) :
    Galleries.revealTimeout i < Galleries.revealTimeout j := by
  have hc : (i : ℚ) < (j : ℚ) := by exact_mod_cast h
  simp only [Galleries.revealTimeout, Galleries.delay]
  gcongr

/-- Witness for C4 at indices 0 and 1. -/
theorem C4_reveal_strict_mono_witness :
    0 < 1 ∧ Galleries.revealTimeout 0 < Galleries.revealTimeout 1 :=
  ⟨by norm_num, C4_reveal_strict_mono 0 1 (by norm_num)⟩

/-- Claim C5: lazy loading is intersection-based: a `has-entered` addition
at timeout `delay / 3` is scheduled for a target exactly when some entry of
the batch has that target and `isIntersecting = true`; in particular the
targets of non-intersecting entries receive nothing from the callback. -/
theorem C5_intersection_iff {α : Type} (entries : List (Entry α)) (u : ScheduledAdd α) :
    u ∈ Galleries.observerCallback entries ↔
      u.time = Galleries.delay / 3 ∧ u.className = "has-entered" ∧
        ∃ e ∈ entries, e.isIntersecting = true ∧ e.target = u.target := by
  induction entries with
  | nil => simp [Galleries.observerCallback]
  | cons e rest ih =>
    cases u with
    | mk time target className =>
      cases he : e.isIntersecting <;>
        simp [Galleries.observerCallback, he, ih, ScheduledAdd.mk.injEq, and_assoc]
      all_goals aesop

/-- Claim C6: the render emits exactly one `.gallery__card-container` per
image and in list order: the lists have equal length, the card at position
`i` is built from the image at position `i`, its `data-index` attribute
decodes to `i`, and its `data-node-base` is that image's `node.base`. -/
theorem C6_render_cards (images : List ImageEdge) :
    (Galleries.renderCards images).length = images.length ∧
      (∀ i : ℕ,
        (Galleries.renderCards images)[i]? =
          images[i]?.map fun image => Galleries.mkRenderedCard i image) ∧
      ∀ i : ℕ, ∀ image : ImageEdge,
        Nat.ofDigits 10 (Galleries.mkRenderedCard i image).datasetIndex = i ∧
          (Galleries.mkRenderedCard i image).dataNodeBase = image.node.base := by
  refine ⟨length_renderCardsFrom 0 images, fun i => ?_, fun i image => ?_⟩
  · simpa using getElem?_renderCardsFrom images 0 i
  · exact ⟨by simp [Galleries.mkRenderedCard, Nat.ofDigits_digits], rfl⟩

/-- Claim C7: the render output is a deterministic function of the `data`
prop and the `activeCard` state: two renders with equal inputs produce the
identical element tree. -/
theorem C7_render_deterministic (d₁ d₂ : GalleryData) (a₁ a₂ : Option ActiveCard)
    (hd : d₁ = d₂) (ha : a₁ = a₂) :
    Galleries.renderGallery d₁ a₁ = Galleries.renderGallery d₂ a₂ := by
  subst hd; subst ha; rfl

/-- Witness for C7 at concrete sample data and an active card. -/
theorem C7_render_deterministic_witness :
    sampleData = sampleData ∧ some (Galleries.cardRefAt 0) = some (Galleries.cardRefAt 0) ∧
      Galleries.renderGallery sampleData (some (Galleries.cardRefAt 0)) =
        Galleries.renderGallery sampleData (some (Galleries.cardRefAt 0)) :=
  ⟨rfl, rfl,
    C7_render_deterministic sampleData sampleData (some (Galleries.cardRefAt 0))
      (some (Galleries.cardRefAt 0)) rfl rfl⟩

/-- Counterexample to claim C8 as stated: the hardcoded `modalHeight`
`620.666` of `galleries.js` is not equal to the computed
`modalWidth * (2 / 3)` of the earlier variant (the latter is `620.666…`,
larger by exactly `1/1500`). -/
theorem C8_two_versions_counterexample :
    ¬ Galleries.modalHeight = Part000.modalHeight := by
  norm_num [Galleries.modalHeight, Part000.modalHeight, Part000.modalWidth]

/-- Claim C8, amended: for the same inputs the two versions agree on
`cardSize`, `delay` and `modalWidth`, and hence on every X-axis transform
value (initial translate, initial scales) and on the final scale factors
(all `1`); but `galleries.js` hardcodes `modalHeight = 620.666` while the
variant computes `modalWidth * (2 / 3)`, which exceeds it by exactly
`1/1500`, so the Y-axis initial scale factors and final translates of the
two versions differ. -/
theorem C8_two_versions_amended (card : ElementGeom) (env : Env)
    (hw : card.offsetWidth = 275) (hh : card.offsetHeight = 275) :
    Galleries.cardSize = Part000.cardSize ∧
      Galleries.delay = Part000.delay ∧
      Galleries.modalWidth = Part000.modalWidth ∧
      Part000.modalHeight - Galleries.modalHeight = 1 / 1500 ∧
      (Galleries.initialModalTransform card).translateX =
        (Part000.initialModalTransform sampleModal card).translateX ∧
      (Galleries.initialModalTransform card).scaleX =
        (Part000.initialModalTransform sampleModal card).scaleX ∧
      Galleries.initialContainerScale.scaleX =
        (Part000.initialContainerScale sampleModal card).scaleX ∧
      (Galleries.finalModalTransform env).translateX =
        (Part000.finalModalTransform sampleModal env).translateX ∧
      (Galleries.finalModalTransform env).scaleX = 1 ∧
      (Galleries.finalModalTransform env).scaleY = 1 ∧
      (Part000.finalModalTransform sampleModal env).scaleX = 1 ∧
      (Part000.finalModalTransform sampleModal env).scaleY = 1 ∧
      (Galleries.initialModalTransform card).scaleY ≠
        (Part000.initialModalTransform sampleModal card).scaleY ∧
      (Galleries.finalModalTransform env).translateY ≠
        (Part000.finalModalTransform sampleModal env).translateY := by
  refine ⟨by norm_num [Galleries.cardSize, Part000.cardSize],
    by norm_num [Galleries.delay, Part000.delay],
    by norm_num [Galleries.modalWidth, Part000.modalWidth],
    by norm_num [Galleries.modalHeight, Part000.modalHeight, Part000.modalWidth],
    ?_, ?_, ?_, ?_, rfl, rfl, rfl, rfl, ?_, ?_⟩
  · simp only [Galleries.initialModalTransform, Part000.initialModalTransform,
      Part000.targetX, Galleries.modalWidth, sampleModal]
  · simp only [Galleries.initialModalTransform, Part000.initialModalTransform,
      Galleries.cardSize, Galleries.modalWidth, sampleModal, hw]
  · simp only [Galleries.initialContainerScale, Part000.initialContainerScale,
      Galleries.cardSize, Galleries.modalWidth, sampleModal, hw]
  · simp only [Galleries.finalModalTransform, Part000.finalModalTransform,
      Galleries.modalWidth, sampleModal]
  · simp only [Galleries.initialModalTransform, Part000.initialModalTransform,
      Galleries.cardSize, Galleries.modalHeight, sampleModal, hh]
    norm_num
  · simp only [Galleries.finalModalTransform, Part000.finalModalTransform,
      Galleries.modalHeight, sampleModal]
    intro hcontra
    norm_num at hcontra

/-- Witness for the amended C8 at the sample card and environment. -/
theorem C8_two_versions_amended_witness :
    sampleCard.offsetWidth = 275 ∧ sampleCard.offsetHeight = 275 ∧
      (Galleries.cardSize = Part000.cardSize ∧
        Galleries.delay = Part000.delay ∧
        Galleries.modalWidth = Part000.modalWidth ∧
        Part000.modalHeight - Galleries.modalHeight = 1 / 1500 ∧
        (Galleries.initialModalTransform sampleCard).translateX =
          (Part000.initialModalTransform sampleModal sampleCard).translateX ∧
        (Galleries.initialModalTransform sampleCard).scaleX =
          (Part000.initialModalTransform sampleModal sampleCard).scaleX ∧
        Galleries.initialContainerScale.scaleX =
          (Part000.initialContainerScale sampleModal sampleCard).scaleX ∧
        (Galleries.finalModalTransform sampleEnv).translateX =
          (Part000.finalModalTransform sampleModal sampleEnv).translateX ∧
        (Galleries.finalModalTransform sampleEnv).scaleX = 1 ∧
        (Galleries.finalModalTransform sampleEnv).scaleY = 1 ∧
        (Part000.finalModalTransform sampleModal sampleEnv).scaleX = 1 ∧
        (Part000.finalModalTransform sampleModal sampleEnv).scaleY = 1 ∧
        (Galleries.initialModalTransform sampleCard).scaleY ≠
          (Part000.initialModalTransform sampleModal sampleCard).scaleY ∧
        (Galleries.finalModalTransform sampleEnv).translateY ≠
          (Part000.finalModalTransform sampleModal sampleEnv).translateY) :=
  ⟨by norm_num [sampleCard], by norm_num [sampleCard],
    C8_two_versions_amended sampleCard sampleEnv (by norm_num [sampleCard])
      (by norm_num [sampleCard])⟩

/-- Claim C9: with no active card the modal effect is a no-op in both
versions: it returns at once, and the modal's transform, the image
container's transform and the modal's class list are all unchanged, with
nothing scheduled. -/
theorem C9_noop_without_target (s : ModalState) (env : Env) :
    Galleries.modalEffect none s env = ⟨none, s, []⟩ ∧
      ∀ (d : ℚ) (modal : ElementGeom),
        Part000.animateModal d modal none s env = ⟨none, s, []⟩ :=
  ⟨rfl, fun _ _ => rfl⟩

/-- Claim C10: the active-card index round-trips through the DOM dataset:
clicking card `i` hands `GalleryModal` an `activeCardIndex` of exactly `i`
(parsing the decimal string stored in `data-index` recovers `i`), and it
receives null when no card is active. -/
theorem C10_index_roundtrip (data : GalleryData) (i : ℕ) :
    (Galleries.renderGallery data (some (Galleries.cardRefAt i))).modalActiveCardIndex =
        some i ∧
      (Galleries.renderGallery data none).modalActiveCardIndex = none := by
  constructor
  · simp [Galleries.renderGallery, Galleries.activeCardIndex, Galleries.cardRefAt,
      Nat.ofDigits_digits]
  · rfl

end Portfolio
